import Mathlib

/-!
Verification of the quote-selection and theme-resolution core of the
`good-mood-generator` repository.

The quote module is embedded from `src/composables/useQuotes.ts`
(`pickNewIndex`, `currentQuote`, `nextQuote`), the theme module from the
script of `src/components/ThemeToggle.vue` (`applyTheme` and the
resolution logic inside `onMounted`).

Randomness: every iteration of the rejection loop in `pickNewIndex`
computes `Math.floor(Math.random() * length)`, which is an integer in
`[0, length)` because `Math.random()` lies in `[0, 1)`.  We embed the
random source as an explicit list of draws, each draw a natural number,
and carry the range fact `d < length` as a hypothesis where the claims
need it.  A run of the loop that exhausts the list without finding a
differing draw corresponds to a non-terminating (still running) loop and
is represented by `none`.
-/

namespace GoodMood

/-- Author metadata of a quote.  Modelled from the spec: the file
`src/types/quote.ts` declaring `QuoteItem` is not part of the sources
given, so the shape is taken from the data model section of the spec
(`name` string, optional `bio`, optional `photo` URL). -/
structure Author where
  name : String
  bio : Option String
  photo : Option String
  deriving Repr, DecidableEq

/-- A quote record.  Modelled from the spec: `src/types/quote.ts` is not
among the given sources; the spec describes a non-empty `text` body and
an optional `author` record. -/
structure QuoteItem where
  text : String
  author : Option Author
  deriving Repr, DecidableEq

/-- The `while (next === current)` rejection loop of `pickNewIndex`,
unrolled over the explicit list of random draws: successive draws are
consumed while they equal `current`; the first differing draw is
returned.  `none` means the supplied draws were exhausted with the loop
still running. -/
def rejectLoop (current : Nat) : List Nat → Option Nat
  | [] => none
  | d :: ds => if d = current then rejectLoop current ds else some d

/-- Embedding of `pickNewIndex(current, length)` from
`src/composables/useQuotes.ts` (lines 45–57):
`if (length <= 1) return 0;` then the rejection loop.  Since `next` is
initialised to `current`, the loop body always runs at least once when
`length >= 2`, so the result is always one of the draws. -/
def pickNewIndex (current length : Nat) (draws : List Nat) : Option Nat :=
  if length ≤ 1 then some 0
  else rejectLoop current draws

/-- The mutable state of the `useQuotes` composable: the fixed quote
collection (`quotes`, loaded once from JSON) and the reactive
`currentIndex` (initialised to 0). -/
structure QuotesState where
  quotes : List QuoteItem
  currentIndex : Nat
  deriving Repr, DecidableEq

/-- Embedding of the `currentQuote` computed value
(`src/composables/useQuotes.ts` lines 82–85):
`if (!quotes.length) return null; return quotes[currentIndex] ?? null;`.
An out-of-range subscript yields `undefined`, which the `?? null`
coalesces to `null`; `List.get?` has exactly this behaviour. -/
def currentQuote (s : QuotesState) : Option QuoteItem :=
  if s.quotes.length = 0 then none
  else s.quotes.get? s.currentIndex

/-- Embedding of `nextQuote()` (`src/composables/useQuotes.ts` lines
96–98): `currentIndex.value = pickNewIndex(currentIndex.value,
quotes.length)`.  The quote list itself is untouched.  `none` again
means the rejection loop did not terminate within the supplied draws. -/
def nextQuote (s : QuotesState) (draws : List Nat) : Option QuotesState :=
  (pickNewIndex s.currentIndex s.quotes.length draws).map
    (fun i => { s with currentIndex := i })

/-- The states of the composable reachable from module creation: the
index starts at 0 and is changed only by terminating runs of
`nextQuote`, whose draws all lie in `[0, length)` as produced by
`Math.floor(Math.random() * length)`. -/
inductive ReachableIdx (quotes : List QuoteItem) : Nat → Prop
  | init : ReachableIdx quotes 0
  | step (i j : Nat) (draws : List Nat)
      (hr : ReachableIdx quotes i)
      (hd : ∀ d ∈ draws, d < quotes.length)
      (h : pickNewIndex i quotes.length draws = some j) :
      ReachableIdx quotes j

/-- If the rejection loop terminates, its result is one of the draws and
differs from `current`. -/
lemma rejectLoop_mem_ne (current : Nat) (draws : List Nat) (n : Nat)
    (h : rejectLoop current draws = some n) :
    n ∈ draws ∧ n ≠ current := by
  induction draws with
  | nil => simp [rejectLoop] at h
  | cons d ds ih =>
    by_cases hd : d = current
    · simp only [rejectLoop, hd, if_pos rfl] at h
      rcases ih h with ⟨hm, hn⟩
      exact ⟨List.mem_cons_of_mem _ hm, hn⟩
    · simp only [rejectLoop, if_neg hd] at h
      cases h
      exact ⟨List.mem_cons_self _ _, hd⟩

/-- Any terminating run of `pickNewIndex` with in-range draws returns an
in-range index; when `length ≥ 2` it moreover differs from `current`. -/
lemma pickNewIndex_range (current length : Nat) (draws : List Nat) (n : Nat)
    (hlen : 1 ≤ length)
    (hd : ∀ d ∈ draws, d < length)
    (h : pickNewIndex current length draws = some n) :
    n < length := by
  unfold pickNewIndex at h
  by_cases hle : length ≤ 1
  · rw [if_pos hle] at h
    cases h
    omega
  · rw [if_neg hle] at h
    rcases rejectLoop_mem_ne current draws n h with ⟨hm, _⟩
    exact hd n hm

/-! The theme module, from the script of `src/components/ThemeToggle.vue`.

The environment visible to the component is: the origin-scoped durable
store (`localStorage`) holding at most one value under the fixed key
`"good-mood.theme"`, the OS-level hint
(`window.matchMedia("(prefers-color-scheme: dark)").matches`), and the
`data-theme` attribute on the document element.  Availability flags
model restricted environments: `storageAvailable = false` means any
access to the store throws (as in sandboxed frames), and
`matchMediaAvailable = false` means `window` is undefined or
`window.matchMedia` is not a function — the case the code guards with
`typeof` checks.  Accesses to an unavailable store are embedded as
`Except.error ()` because the source performs them without any
try/catch. -/

/-- Binary theme preference. -/
inductive Theme where
  | light
  | dark
  deriving Repr, DecidableEq

/-- The browser-side environment of `ThemeToggle.vue`. -/
structure ThemeEnv where
  storageAvailable : Bool
  storage : Option String
  matchMediaAvailable : Bool
  prefersDark : Bool
  dataTheme : Option String
  deriving Repr, DecidableEq

/-- Embedding of `localStorage.getItem(STORAGE_KEY)`: yields the stored
value (absent = `none`) when the store is reachable, and throws
otherwise. -/
def getItem (env : ThemeEnv) : Except Unit (Option String) :=
  if env.storageAvailable then Except.ok env.storage
  else Except.error ()

/-- Embedding of `localStorage.setItem(STORAGE_KEY, v)`. -/
def setItem (env : ThemeEnv) (v : String) : Except Unit ThemeEnv :=
  if env.storageAvailable then Except.ok { env with storage := some v }
  else Except.error ()

/-- Embedding of `applyTheme(dark)` (`ThemeToggle.vue` lines 20–24):
`theme = dark ? "dark" : "light"`, set the `data-theme` attribute, then
persist the same string under the fixed key. -/
def applyTheme (dark : Bool) (env : ThemeEnv) : Except Unit ThemeEnv :=
  let theme := if dark then "dark" else "light"
  setItem { env with dataTheme := some theme } theme

/-- The preference encoded by the `isDark` flag. -/
def themeOfDark (dark : Bool) : Theme :=
  if dark then Theme.dark else Theme.light

/-- The `isDark` flag of a preference (`"dark"` maps to `true`). -/
def darkOfTheme : Theme → Bool
  | Theme.dark => true
  | Theme.light => false

/-- Embedding of the resolution part of `onMounted` (`ThemeToggle.vue`
lines 26–40): read the persisted value; if it equals `"dark"` or
`"light"`, adopt it verbatim (`isDark = saved === "dark"`); otherwise
fall through to the guarded OS hint
(`typeof window !== "undefined" && typeof window.matchMedia ===
"function" && matchMedia(...).matches`).  The initial read is performed
without a guard, so an unavailable store propagates as an error. -/
def resolveInitial (env : ThemeEnv) : Except Unit Theme :=
  match getItem env with
  | Except.error e => Except.error e
  | Except.ok saved =>
      let isDark : Bool :=
        if saved = some "dark" ∨ saved = some "light" then
          decide (saved = some "dark")
        else
          env.matchMediaAvailable && env.prefersDark
      Except.ok (themeOfDark isDark)

/-- Computation of `resolveInitial` on an environment whose store is
reachable. -/
lemma resolveInitial_ok (env : ThemeEnv) (hs : env.storageAvailable = true) :
    resolveInitial env = Except.ok (themeOfDark
      (if env.storage = some "dark" ∨ env.storage = some "light" then
        decide (env.storage = some "dark")
      else
        env.matchMediaAvailable && env.prefersDark)) := by
  unfold resolveInitial getItem
  rw [hs]
  simp only [if_true]

/-- Whatever `applyTheme` succeeds on, the store was reachable and now
holds the theme string, the other environment fields being untouched. -/
lemma applyTheme_ok (dark : Bool) (env env1 : ThemeEnv)
    (h : applyTheme dark env = Except.ok env1) :
    env.storageAvailable = true ∧
      env1 = { env with
        dataTheme := some (if dark then "dark" else "light"),
        storage := some (if dark then "dark" else "light") } := by
  unfold applyTheme setItem at h
  by_cases hs : env.storageAvailable = true
  · rw [hs] at h
    simp only [if_true] at h
    cases h
    refine ⟨hs, ?_⟩
    rw [hs]
  · simp only [Bool.not_eq_true] at hs
    rw [hs] at h
    simp only [Bool.false_eq_true, if_false] at h
    cases h

end GoodMood

/-- C1: for every collection length ≥ 2 and every current index, any
terminating run of the rejection loop of `pickNewIndex` (the body of
`nextQuote`) yields an index in `[0, length)` different from the
immediately preceding index, for any sequence of in-range random
draws. -/
theorem GoodMood.C1_pickNewIndex_in_range_and_ne
    (current length : Nat) (draws : List Nat) (n : Nat)
    (hlen : 2 ≤ length)
    (hd : ∀ d ∈ draws, d < length)
    (h : GoodMood.pickNewIndex current length draws = some n) :
    n < length ∧ n ≠ current := by
  have hle : ¬ length ≤ 1 := by omega
  have h2 : GoodMood.rejectLoop current draws = some n := by
    unfold GoodMood.pickNewIndex at h
    rwa [if_neg hle] at h
  rcases GoodMood.rejectLoop_mem_ne current draws n h2 with ⟨hm, hne⟩
  exact ⟨hd n hm, hne⟩

/-- Witness for C1 at a concrete input: length 3, current index 0,
draws [0, 2]. -/
theorem GoodMood.C1_witness :
    GoodMood.pickNewIndex 0 3 [0, 2] = some 2 ∧ (2 < 3 ∧ 2 ≠ 0) := by
  refine ⟨by decide, GoodMood.C1_pickNewIndex_in_range_and_ne 0 3 [0, 2] 2
    (by decide) (by decide) (by decide)⟩

/-- C2: for collection length 0 or 1, `pickNewIndex` (hence `nextQuote`)
always terminates and sets the index to 0, regardless of the draws; in
particular, on a one-element collection currently showing its sole
record, `nextQuote` leaves `currentQuote` unchanged. -/
theorem GoodMood.C2_short_collection
    (current : Nat) (length : Nat) (draws : List Nat)
    (s : GoodMood.QuotesState)
    (hlen : length ≤ 1)
    (hs : s.quotes.length = 1) (hidx : s.currentIndex = 0) :
    GoodMood.pickNewIndex current length draws = some 0 ∧
      GoodMood.nextQuote s draws =
        some { s with currentIndex := 0 } ∧
      (GoodMood.nextQuote s draws).map GoodMood.currentQuote =
        some (GoodMood.currentQuote s) := by
  have hpick : GoodMood.pickNewIndex current length draws = some 0 := by
    unfold GoodMood.pickNewIndex
    rw [if_pos hlen]
  have hpick1 :
      GoodMood.pickNewIndex s.currentIndex s.quotes.length draws = some 0 := by
    unfold GoodMood.pickNewIndex
    rw [if_pos (by omega)]
  refine ⟨hpick, ?_, ?_⟩
  · unfold GoodMood.nextQuote
    rw [hpick1]
    rfl
  · unfold GoodMood.nextQuote
    rw [hpick1]
    simp only [Option.map_some']
    rw [← hidx]

/-- Witness for C2: a one-element collection at index 0. -/
theorem GoodMood.C2_witness :
    let q : GoodMood.QuoteItem := ⟨"A", none⟩
    let s : GoodMood.QuotesState := ⟨[q], 0⟩
    GoodMood.pickNewIndex 5 1 [0, 0] = some 0 ∧
      GoodMood.nextQuote s [0, 0] = some { s with currentIndex := 0 } ∧
      (GoodMood.nextQuote s [0, 0]).map GoodMood.currentQuote =
        some (GoodMood.currentQuote s) :=
  GoodMood.C2_short_collection 5 1 [0, 0] ⟨[⟨"A", none⟩], 0⟩
    (by decide) (by decide) (by decide)

/-- Every index reachable from module creation is in range while the
collection is non-empty. -/
lemma GoodMood.reachableIdx_lt (quotes : List GoodMood.QuoteItem) (i : Nat)
    (hq : quotes ≠ []) (hr : GoodMood.ReachableIdx quotes i) :
    i < quotes.length := by
  induction hr with
  | init =>
    have : 0 < quotes.length := List.length_pos.mpr hq
    exact this
  | step i j draws hr hd h ih =>
    exact GoodMood.pickNewIndex_range i quotes.length draws j
      (by have := List.length_pos.mpr hq; omega) hd h

/-- C3: over the reachable states of the composable, `currentQuote` is
`none` exactly when the quote collection is empty: it is `none` on an
empty collection, and on a non-empty collection it is `some` record. -/
theorem GoodMood.C3_currentQuote_none_iff_empty
    (quotes : List GoodMood.QuoteItem) (i : Nat)
    (hr : GoodMood.ReachableIdx quotes i) :
    GoodMood.currentQuote ⟨quotes, i⟩ = none ↔ quotes = [] := by
  constructor
  · intro h
    by_contra hq
    have hlt : i < quotes.length := GoodMood.reachableIdx_lt quotes i hq hr
    have hlen : quotes.length ≠ 0 := by
      intro h0
      exact hq (List.length_eq_zero.mp h0)
    unfold GoodMood.currentQuote at h
    simp only [if_neg hlen] at h
    rcases List.get?_eq_get hlt with hg
    rw [hg] at h
    cases h
  · intro h
    subst h
    rfl

/-- Witness for C3: the initial state over a two-element collection. -/
theorem GoodMood.C3_witness :
    let qs : List GoodMood.QuoteItem := [⟨"A", none⟩, ⟨"B", none⟩]
    ¬ (GoodMood.currentQuote ⟨qs, 0⟩ = none) :=
  fun h =>
    (List.cons_ne_nil _ _)
      ((GoodMood.C3_currentQuote_none_iff_empty _ 0
        GoodMood.ReachableIdx.init).mp h)

/-- C8: the quote collection is never mutated: `currentQuote` is a pure
read, and any successful `nextQuote` step leaves the collection (its
contents, hence its length) unchanged, altering only `currentIndex`. -/
theorem GoodMood.C8_collection_frame
    (s t : GoodMood.QuotesState) (draws : List Nat)
    (h : GoodMood.nextQuote s draws = some t) :
    t.quotes = s.quotes ∧ t.quotes.length = s.quotes.length := by
  unfold GoodMood.nextQuote at h
  cases hp : GoodMood.pickNewIndex s.currentIndex s.quotes.length draws with
  | none => rw [hp] at h; cases h
  | some i =>
    rw [hp] at h
    simp only [Option.map_some'] at h
    cases h
    exact ⟨rfl, rfl⟩

/-- Witness for C8: a concrete `nextQuote` step on a two-element
collection. -/
theorem GoodMood.C8_witness :
    let qs : List GoodMood.QuoteItem := [⟨"A", none⟩, ⟨"B", none⟩]
    (⟨qs, 1⟩ : GoodMood.QuotesState).quotes = qs ∧
      (⟨qs, 1⟩ : GoodMood.QuotesState).quotes.length = qs.length :=
  GoodMood.C8_collection_frame ⟨[⟨"A", none⟩, ⟨"B", none⟩], 0⟩
    ⟨[⟨"A", none⟩, ⟨"B", none⟩], 1⟩ [1] (by decide)

/-- C9: `currentQuote` is total even when the current index is out of
range: on a non-empty collection with index ≥ length, the `?? null`
coalescing makes it return `none` rather than an undefined value. -/
theorem GoodMood.C9_out_of_range_none
    (quotes : List GoodMood.QuoteItem) (i : Nat)
    (hq : quotes ≠ []) (hi : quotes.length ≤ i) :
    GoodMood.currentQuote ⟨quotes, i⟩ = none := by
  have hlen : quotes.length ≠ 0 := by
    intro h0
    exact hq (List.length_eq_zero.mp h0)
  unfold GoodMood.currentQuote
  simp only [if_neg hlen]
  exact List.get?_eq_none.mpr hi

/-- Witness for C9: index 5 on a two-element collection. -/
theorem GoodMood.C9_witness :
    GoodMood.currentQuote ⟨[⟨"A", none⟩, ⟨"B", none⟩], 5⟩ = none :=
  GoodMood.C9_out_of_range_none [⟨"A", none⟩, ⟨"B", none⟩] 5
    (by decide) (by decide)

/-- C10: `pickNewIndex` re-establishes the range invariant from any
starting index: for every length ≥ 1 and every current index (in range
or not), any terminating run with in-range draws returns an index in
`[0, length)`. -/
theorem GoodMood.C10_reestablish_range
    (current length : Nat) (draws : List Nat) (n : Nat)
    (hlen : 1 ≤ length)
    (hd : ∀ d ∈ draws, d < length)
    (h : GoodMood.pickNewIndex current length draws = some n) :
    n < length :=
  GoodMood.pickNewIndex_range current length draws n hlen hd h

/-- Witness for C10: out-of-range current index 7 on length 2. -/
theorem GoodMood.C10_witness :
    GoodMood.pickNewIndex 7 2 [1] = some 1 ∧ 1 < 2 :=
  ⟨by decide, GoodMood.C10_reestablish_range 7 2 [1] 1
    (by decide) (by decide) (by decide)⟩

/-- C4: for every preference, applying it and then resolving on a fresh
instance over the same storage, with the OS hint unchanged (and
arbitrary), yields that preference back. -/
theorem GoodMood.C4_roundtrip (pref : GoodMood.Theme)
    (env env1 : GoodMood.ThemeEnv)
    (h : GoodMood.applyTheme (GoodMood.darkOfTheme pref) env = Except.ok env1) :
    GoodMood.resolveInitial env1 = Except.ok pref := by
  rcases GoodMood.applyTheme_ok _ env env1 h with ⟨hs, henv⟩
  have hs1 : env1.storageAvailable = true := by
    rw [henv]
    exact hs
  cases pref with
  | light =>
      rw [GoodMood.resolveInitial_ok env1 hs1, henv]
      rfl
  | dark =>
      rw [GoodMood.resolveInitial_ok env1 hs1, henv]
      rfl

/-- Witness for C4: applying dark on a storage-backed environment with
the OS hint reporting light still resolves to dark after reload. -/
theorem GoodMood.C4_witness :
    GoodMood.resolveInitial ⟨true, some "dark", false, false, some "dark"⟩ =
      Except.ok GoodMood.Theme.dark :=
  GoodMood.C4_roundtrip GoodMood.Theme.dark ⟨true, none, false, false, none⟩
    ⟨true, some "dark", false, false, some "dark"⟩ rfl

/-- C5: with readable storage holding no persisted value, the resolved
preference is exactly the guarded OS hint: dark when the hint is
available and reports dark, light when it reports light or is
unavailable. -/
theorem GoodMood.C5_os_tier (env : GoodMood.ThemeEnv)
    (hs : env.storageAvailable = true) (hn : env.storage = none) :
    GoodMood.resolveInitial env =
        Except.ok (GoodMood.themeOfDark
          (env.matchMediaAvailable && env.prefersDark)) ∧
      (env.matchMediaAvailable = true → env.prefersDark = true →
        GoodMood.resolveInitial env = Except.ok GoodMood.Theme.dark) ∧
      (env.matchMediaAvailable = false ∨ env.prefersDark = false →
        GoodMood.resolveInitial env = Except.ok GoodMood.Theme.light) := by
  have h1 : GoodMood.resolveInitial env =
      Except.ok (GoodMood.themeOfDark
        (env.matchMediaAvailable && env.prefersDark)) := by
    rw [GoodMood.resolveInitial_ok env hs, hn]
    rw [if_neg (by decide)]
  refine ⟨h1, ?_, ?_⟩
  · intro hm hp
    rw [h1, hm, hp]
    rfl
  · intro hcase
    rw [h1]
    rcases hcase with hm | hp
    · rw [hm]
      rfl
    · rw [hp, Bool.and_false]
      rfl

/-- Witness for C5: empty storage, OS hint available and dark. -/
theorem GoodMood.C5_witness :
    GoodMood.resolveInitial ⟨true, none, true, true, none⟩ =
      Except.ok GoodMood.Theme.dark :=
  (GoodMood.C5_os_tier ⟨true, none, true, true, none⟩ rfl rfl).2.1 rfl rfl

/-- C6 counterexample: with the durable store unavailable (its read
throws) and the OS hint also unavailable, `resolveInitial` does not
complete with the light default — the unguarded `localStorage.getItem`
call propagates the failure. -/
theorem GoodMood.C6_counterexample :
    GoodMood.resolveInitial ⟨false, none, false, false, none⟩ =
        Except.error () ∧
      GoodMood.resolveInitial ⟨false, none, false, false, none⟩ ≠
        Except.ok GoodMood.Theme.light := by
  refine ⟨rfl, ?_⟩
  intro h
  have h2 : (Except.error () : Except Unit GoodMood.Theme) =
      Except.ok GoodMood.Theme.light := h
  cases h2

/-- C6 amended: an unavailable OS-preference query is tolerated — with
readable storage holding no value and no OS hint, `resolveInitial`
completes and returns light; but an unavailable durable store is not
tolerated: its unguarded read propagates as an error. -/
theorem GoodMood.C6_amended_fallthrough (env : GoodMood.ThemeEnv)
    (hs : env.storageAvailable = true)
    (hm : env.matchMediaAvailable = false)
    (hn : env.storage = none) :
    GoodMood.resolveInitial env = Except.ok GoodMood.Theme.light ∧
      ∀ e : GoodMood.ThemeEnv, e.storageAvailable = false →
        GoodMood.resolveInitial e = Except.error () := by
  constructor
  · rw [GoodMood.resolveInitial_ok env hs, hn]
    rw [if_neg (by decide), hm]
    rfl
  · intro e he
    unfold GoodMood.resolveInitial GoodMood.getItem
    rw [he]
    rfl

/-- Witness for C6: readable empty storage with no OS hint resolves to
light; an unavailable store makes the resolver throw. -/
theorem GoodMood.C6_witness :
    GoodMood.resolveInitial ⟨true, none, false, false, none⟩ =
        Except.ok GoodMood.Theme.light ∧
      GoodMood.resolveInitial ⟨false, none, false, true, none⟩ =
        Except.error () :=
  ⟨(GoodMood.C6_amended_fallthrough ⟨true, none, false, false, none⟩
      rfl rfl rfl).1,
    (GoodMood.C6_amended_fallthrough ⟨true, none, false, false, none⟩
      rfl rfl rfl).2 ⟨false, none, false, true, none⟩ rfl⟩

/-- C7: the persisted value is adopted verbatim exactly when it is the
string "dark" or "light"; any other stored state (absent or any other
string) is ignored and the resolution falls through to the guarded OS
hint tier. -/
theorem GoodMood.C7_verbatim_iff (env : GoodMood.ThemeEnv)
    (hs : env.storageAvailable = true) :
    (env.storage = some "dark" →
        GoodMood.resolveInitial env = Except.ok GoodMood.Theme.dark) ∧
      (env.storage = some "light" →
        GoodMood.resolveInitial env = Except.ok GoodMood.Theme.light) ∧
      (env.storage ≠ some "dark" → env.storage ≠ some "light" →
        GoodMood.resolveInitial env =
          Except.ok (GoodMood.themeOfDark
            (env.matchMediaAvailable && env.prefersDark))) := by
  refine ⟨?_, ?_, ?_⟩
  · intro hd
    rw [GoodMood.resolveInitial_ok env hs, hd]
    rw [if_pos (Or.inl rfl)]
    rfl
  · intro hl
    rw [GoodMood.resolveInitial_ok env hs, hl]
    rw [if_pos (Or.inr rfl)]
    rfl
  · intro hnd hnl
    rw [GoodMood.resolveInitial_ok env hs]
    rw [if_neg (fun hc => hc.elim hnd hnl)]

/-- Witness for C7: the stored string "sepia" is not adopted; the hint
tier (available, light) decides. -/
theorem GoodMood.C7_witness :
    GoodMood.resolveInitial ⟨true, some "sepia", true, false, none⟩ =
      Except.ok GoodMood.Theme.light :=
  (GoodMood.C7_verbatim_iff ⟨true, some "sepia", true, false, none⟩ rfl).2.2
    (by decide) (by decide)
